import Mathlib

/-!
Verification development for the auto-pr repository: a shallow embedding of
the database layer (python_database_manager.py, python_mysql_config.py),
the health-check script (health_check.py) and the ETL pipeline
(mysql_etl_pipeline.py), together with theorems settling the specified
behaviour of metrics recording, transactions, batch insert, pool
acquisition, health reduction and customer segmentation.

Machine reals (wall-clock durations) are modelled as rationals; the external
MySQL driver is modelled by explicit transactional state (a committed
snapshot plus an uncommitted working view per connection) and by statement
transformers that may raise a driver error.
-/

/-- Error raised by the MySQL driver layer (mysql.connector.Error). -/
inductive DriverError where
  | err (msg : String)
deriving DecidableEq, Repr

/-- A pooled connection: the committed database state together with the
connection's uncommitted working view.  Library transaction semantics:
start_transaction begins work from the committed snapshot, commit publishes
the working view, rollback discards it. -/
structure Conn (σ : Type) where
  committed : σ
  working : σ
deriving DecidableEq, Repr

/-- connection.start_transaction(): begin work from the committed snapshot. -/
def Conn.start_transaction {σ : Type} (c : Conn σ) : Conn σ :=
  { c with working := c.committed }

/-- connection.commit(): publish the working view. -/
def Conn.commit {σ : Type} (c : Conn σ) : Conn σ :=
  { c with committed := c.working }

/-- connection.rollback(): discard uncommitted work. -/
def Conn.rollback {σ : Type} (c : Conn σ) : Conn σ :=
  { c with working := c.committed }

/-- One SQL statement as executed on a connection: a transformer of the
working view that returns a result or raises a driver error. -/
abbrev Stmt (σ ρ : Type) : Type := σ → Except DriverError (σ × ρ)

/-- One entry of the metrics query history
(QueryMetrics.record_query in python_database_manager.py appends
the dict with keys sql (truncated to 200), execution_time, success,
timestamp; the wall-clock timestamp is an external clock reading and is
not modelled). -/
structure QueryRecord where
  sql : String
  execution_time : ℚ
  success : Bool
deriving DecidableEq, Repr

/-- QueryMetrics state (python_database_manager.py lines 105-139). -/
structure QueryMetrics where
  total_queries : Nat
  slow_queries : Nat
  errors : Nat
  total_execution_time : ℚ
  slow_query_threshold : ℚ
  query_history : List QueryRecord
deriving DecidableEq, Repr

/-- QueryMetrics.__init__: all counters zero, threshold 1.0 s, empty history. -/
def QueryMetrics.init : QueryMetrics :=
  { total_queries := 0, slow_queries := 0, errors := 0,
    total_execution_time := 0, slow_query_threshold := 1, query_history := [] }

/-- QueryMetrics.record_query (python_database_manager.py lines 117-139):
bump counters, append the (truncated) record, pop the oldest entry when the
history exceeds 100. -/
def QueryMetrics.record_query (m : QueryMetrics) (sql : String)
    (execution_time : ℚ) (success : Bool) : QueryMetrics :=
  let m1 := { m with total_queries := m.total_queries + 1,
                     total_execution_time := m.total_execution_time + execution_time }
  let m2 := if success then m1 else { m1 with errors := m1.errors + 1 }
  let m3 := if execution_time > m2.slow_query_threshold then
              { m2 with slow_queries := m2.slow_queries + 1 }
            else m2
  let hist := m3.query_history ++
    [{ sql := sql.take 200, execution_time := execution_time, success := success }]
  let hist2 := if hist.length > 100 then hist.drop 1 else hist
  { m3 with query_history := hist2 }

/-- QueryMetrics.average_execution_time (lines 141-144). -/
def QueryMetrics.average_execution_time (m : QueryMetrics) : ℚ :=
  if m.total_queries > 0 then m.total_execution_time / (m.total_queries : ℚ) else 0

/-- QueryMetrics.error_rate (lines 146-149). -/
def QueryMetrics.error_rate (m : QueryMetrics) : ℚ :=
  if m.total_queries > 0 then (m.errors : ℚ) / (m.total_queries : ℚ) * 100 else 0

/-- QueryMetrics.slow_query_rate (lines 151-154). -/
def QueryMetrics.slow_query_rate (m : QueryMetrics) : ℚ :=
  if m.total_queries > 0 then (m.slow_queries : ℚ) / (m.total_queries : ℚ) * 100 else 0

/-- A sequence of record_query calls, applied in order. -/
def QueryMetrics.recordMany (m : QueryMetrics)
    (calls : List (String × ℚ × Bool)) : QueryMetrics :=
  calls.foldl (fun acc c => acc.record_query c.1 c.2.1 c.2.2) m

/-- The history entry a record_query call produces. -/
def toRecord (c : String × ℚ × Bool) : QueryRecord :=
  { sql := c.1.take 200, execution_time := c.2.1, success := c.2.2 }

/-- The most recent n entries of a list (all of it when it is shorter). -/
def lastN {α : Type} (n : Nat) (l : List α) : List α :=
  l.drop (l.length - n)

/-- Health statuses produced by the checks in monitoring/health_check.py. -/
inductive HealthStatus where
  | healthy
  | warning
  | critical
  | failed
  | unknown
  | not_applicable
deriving DecidableEq, Repr

/-- Predicate of the has_critical accumulation in determine_overall_status
(health_check.py line 295): the check's status is critical or failed. -/
def critP (c : String × HealthStatus) : Bool :=
  decide (c.2 = HealthStatus.critical ∨ c.2 = HealthStatus.failed)

/-- Predicate of the has_warning accumulation (health_check.py line 297). -/
def warnP (c : String × HealthStatus) : Bool :=
  decide (c.2 = HealthStatus.warning)

/-- DatabaseHealthChecker.determine_overall_status (health_check.py lines
287-305), over the (check name, status) entries of the checks mapping. -/
def determine_overall_status (checks : List (String × HealthStatus)) : HealthStatus :=
  let has_critical := checks.any critP
  let has_warning := checks.any warnP
  if has_critical then HealthStatus.critical
  else if has_warning then HealthStatus.warning
  else HealthStatus.healthy

/-- Severity ranking of the claim: critical > failed > warning > healthy >
not_applicable/unknown. -/
def severity : HealthStatus → Nat
  | HealthStatus.critical => 5
  | HealthStatus.failed => 4
  | HealthStatus.warning => 3
  | HealthStatus.healthy => 2
  | HealthStatus.unknown => 1
  | HealthStatus.not_applicable => 1

/-- The most severe individual status of a check set under the claim's
ranking (healthy when the set is empty). -/
def mostSevere (checks : List (String × HealthStatus)) : HealthStatus :=
  checks.foldl (fun acc c => if severity acc < severity c.2 then c.2 else acc)
    HealthStatus.healthy

/-- Collapsed severity rank: critical and failed both force a critical
overall, warning forces warning, everything else (healthy, unknown,
not_applicable) never elevates. -/
def sevRank : HealthStatus → Nat
  | HealthStatus.critical => 2
  | HealthStatus.failed => 2
  | HealthStatus.warning => 1
  | _ => 0

/-- Worst collapsed rank over a check set. -/
def worstRank (checks : List (String × HealthStatus)) : Nat :=
  (checks.map (fun c => sevRank c.2)).foldr max 0

/-- Overall status named by a collapsed rank. -/
def rankStatus : Nat → HealthStatus
  | 2 => HealthStatus.critical
  | 1 => HealthStatus.warning
  | _ => HealthStatus.healthy

/-- Pool status record as read by check_connection_pool (health_check.py
lines 56-58: keys totalConnections, config.connectionLimit, queuedRequests). -/
structure PoolStatus where
  totalConnections : Nat
  connectionLimit : Nat
  queuedRequests : Nat
deriving DecidableEq, Repr

/-- Python AttributeError raised by a failed attribute lookup. -/
inductive PyAttributeError where
  | attributeError (name : String)
deriving DecidableEq, Repr

/-- Attribute lookup self.db.getPoolStatus (health_check.py line 54).  The
DatabaseManager class (python_database_manager.py lines 169-556) defines no
getPoolStatus attribute, so the lookup raises AttributeError on every run. -/
def DBM.getPoolStatusLookup : Except PyAttributeError PoolStatus :=
  Except.error (PyAttributeError.attributeError "getPoolStatus")

/-- The threshold logic of check_connection_pool (health_check.py lines
61-65): healthy, overwritten to warning above 80, overwritten to critical
above 95. -/
def HealthCheck.poolThresholdStatus (utilization : ℚ) : HealthStatus :=
  let status := HealthStatus.healthy
  let status := if utilization > 80 then HealthStatus.warning else status
  if utilization > 95 then HealthStatus.critical else status

/-- DatabaseHealthChecker.check_connection_pool (health_check.py lines
51-81), reduced to the status it stores: the body first calls
self.db.getPoolStatus(); when that raises, the except arm stores status
failed; otherwise it computes the utilization percentage and applies the
thresholds. -/
def HealthCheck.check_connection_pool : HealthStatus :=
  match DBM.getPoolStatusLookup with
  | Except.ok ps =>
      let utilization : ℚ :=
        if ps.connectionLimit > 0 then
          (ps.totalConnections : ℚ) / (ps.connectionLimit : ℚ) * 100
        else 0
      HealthCheck.poolThresholdStatus utilization
  | Except.error _ => HealthStatus.failed

/-- Outcome of one pool.get_connection() attempt: a connection, or
pooling.PoolError because the pool is exhausted. -/
inductive AcquireOutcome where
  | ok
  | exhausted
deriving DecidableEq, Repr

/-- The statistics counters of MySQLConnectionManager touched by
get_connection (python_mysql_config.py lines 94-102). -/
structure ConnStats where
  connections_created : Nat
  pool_exhaustions : Nat
deriving DecidableEq, Repr

/-- Observable events of the acquisition phase of get_connection. -/
inductive AcquireEvent where
  | attempt
  | backoff (seconds : ℚ)
deriving DecidableEq, Repr

/-- Errors that can surface from the acquisition phase.  poolError is the
raw pooling.PoolError of the driver; poolExhaustedError is the distinct
tagged error the spec posits — modelled from the spec, no such class exists
in the repository and the code never raises it. -/
inductive AcqExc where
  | poolError
  | poolExhaustedError
deriving DecidableEq, Repr

/-- Result of the acquisition phase of get_connection. -/
structure AcquireResult where
  stats : ConnStats
  events : List AcquireEvent
  outcome : Except AcqExc Unit
deriving Repr

/-- The acquisition phase of MySQLConnectionManager.get_connection
(python_mysql_config.py lines 152-166): try pool.get_connection(); on
pooling.PoolError, bump pool_exhaustions, sleep 0.1 s and retry exactly
once; a second PoolError propagates raw (the retry sits inside the except
arm, outside any further try). -/
def MCM.get_connection_acquire (st : ConnStats)
    (first second : AcquireOutcome) : AcquireResult :=
  match first with
  | AcquireOutcome.ok =>
      { stats := { st with connections_created := st.connections_created + 1 },
        events := [AcquireEvent.attempt],
        outcome := Except.ok () }
  | AcquireOutcome.exhausted =>
      let st1 := { st with pool_exhaustions := st.pool_exhaustions + 1 }
      match second with
      | AcquireOutcome.ok =>
          { stats := { st1 with connections_created := st1.connections_created + 1 },
            events := [AcquireEvent.attempt, AcquireEvent.backoff (1 / 10),
                       AcquireEvent.attempt],
            outcome := Except.ok () }
      | AcquireOutcome.exhausted =>
          { stats := st1,
            events := [AcquireEvent.attempt, AcquireEvent.backoff (1 / 10),
                       AcquireEvent.attempt],
            outcome := Except.error AcqExc.poolError }

/-- Execute the queries of a transaction strictly in order on the working
view, accumulating per-query results (the loop of
DatabaseManager.execute_transaction, python_database_manager.py lines
342-358). -/
def DBM.runQueries {σ ρ : Type} :
    List (Stmt σ ρ) → σ → List ρ → Except DriverError (σ × List ρ)
  | [], s, acc => Except.ok (s, acc.reverse)
  | q :: rest, s, acc =>
      match q s with
      | Except.ok (s', r) => DBM.runQueries rest s' (r :: acc)
      | Except.error e => Except.error e

/-- DatabaseManager.execute_transaction (python_database_manager.py lines
322-377): one connection, explicit start_transaction, the queries strictly
in order, commit on success; on any driver error, rollback and re-raise. -/
def DBM.execute_transaction {σ ρ : Type} (c : Conn σ) (queries : List (Stmt σ ρ)) :
    Conn σ × Except DriverError (List ρ) :=
  let c0 := c.start_transaction
  match DBM.runQueries queries c0.working [] with
  | Except.ok (s, rs) => (Conn.commit { c0 with working := s }, Except.ok rs)
  | Except.error e => (c0.rollback, Except.error e)

/-- The first driver error hit when the queries run strictly in order from
a given state, none when they all succeed. -/
def firstFailure {σ ρ : Type} : List (Stmt σ ρ) → σ → Option DriverError
  | [], _ => none
  | q :: rest, s =>
      match q s with
      | Except.ok (s', _) => firstFailure rest s'
      | Except.error e => some e

/-- Errors surfaced by DatabaseManager.execute_query.  The driver
constructor is the bare re-raise of the underlying mysql.connector.Error
(line 315); queryError is the tagged wrapper carrying statement and
parameters that the spec posits — modelled from the spec, no such class
exists in the repository and the code never raises it. -/
inductive PyRaised where
  | driver (e : DriverError)
  | queryError (sql : String) (params : List Int) (cause : DriverError)
deriving DecidableEq, Repr

/-- Observable result of DatabaseManager.execute_query: the connection as
left by the call, the metrics after the finally-block record, whether the
connection was rolled back, and the value returned or error raised. -/
structure ExecQueryOut (σ ρ : Type) where
  conn : Conn σ
  metrics : QueryMetrics
  rolled_back : Bool
  outcome : Except PyRaised ρ
deriving Repr

/-- DatabaseManager.execute_query (python_database_manager.py lines
278-320): run the statement; on success record metrics with success true;
on driver error the get_connection context manager rolls the connection
back (lines 269-273), the finally block records metrics with success false
and the raw driver error is re-raised (the params are only written to the
log).  elapsed is the wall-clock duration measured around the call. -/
def DBM.execute_query {σ ρ : Type} (c : Conn σ) (m : QueryMetrics)
    (sql : String) (params : List Int) (stmt : Stmt σ ρ) (elapsed : ℚ) :
    ExecQueryOut σ ρ :=
  match stmt c.working with
  | Except.ok (s', r) =>
      { conn := { c with working := s' },
        metrics := m.record_query sql elapsed true,
        rolled_back := false,
        outcome := Except.ok r }
  | Except.error e =>
      { conn := c.rollback,
        metrics := m.record_query sql elapsed false,
        rolled_back := true,
        outcome := Except.error (PyRaised.driver e) }

/-- Observable events of DatabaseManager.batch_insert. -/
inductive BatchEvent where
  | execChunk (rows : Nat)
  | progressLog (done total : Nat)
  | commit
  | rollback
deriving DecidableEq, Repr

/-- Return value of a successful batch_insert (table name and timing
dropped). -/
structure BatchSummary where
  total_rows : Nat
  batches_processed : Nat
deriving DecidableEq, Repr

/-- Outcome of batch_insert: the summary dict, the ValueError raised on
empty input (line 395), or the re-raised driver error of a failed chunk. -/
inductive BatchOutcome where
  | ok (summary : BatchSummary)
  | valueError
  | driverFailure (e : DriverError)
deriving DecidableEq, Repr

/-- Fuel-driven chunking: rows[i:i+n] for i = 0, n, 2n, ... (the slicing
loop header of python_database_manager.py line 414).  The fuel is an upper
bound on the number of elements left; chunksOf supplies the list length. -/
def chunksOfAux {α : Type} (n : Nat) : Nat → List α → List (List α)
  | 0, _ => []
  | _, [] => []
  | fuel + 1, a :: l => (a :: l).take n :: chunksOfAux n fuel ((a :: l).drop n)

/-- Split a list into consecutive chunks of n elements (last one shorter). -/
def chunksOf {α : Type} (n : Nat) (l : List α) : List (List α) :=
  chunksOfAux n l.length l

/-- State threaded through the chunk loop of batch_insert. -/
structure BatchRun (σ : Type) where
  working : σ
  batches_processed : Nat
  rows_done : Nat
  events : List BatchEvent
  failure : Option DriverError
deriving Repr

/-- The chunk loop of DatabaseManager.batch_insert (lines 414-422): run
cursor.executemany on each chunk of the working view, count batches, log
progress every 10 batches; the first driver error stops the loop. -/
def runBatches {σ Row : Type} (ins : σ → List Row → Except DriverError σ)
    (total : Nat) : List (List Row) → BatchRun σ → BatchRun σ
  | [], st => st
  | b :: rest, st =>
      match ins st.working b with
      | Except.error e => { st with failure := some e }
      | Except.ok s' =>
          let bp := st.batches_processed + 1
          let done := st.rows_done + b.length
          let evs := st.events ++ [BatchEvent.execChunk b.length] ++
            (if bp % 10 = 0 then [BatchEvent.progressLog done total] else [])
          runBatches ins total rest
            { working := s', batches_processed := bp, rows_done := done,
              events := evs, failure := none }

/-- DatabaseManager.batch_insert (python_database_manager.py lines
379-440): ValueError on empty rows; otherwise run the chunk loop on one
connection and commit exactly once after the loop (line 424); a driver
error in any chunk is re-raised and the get_connection context manager
rolls the connection back.  ins is the effect of cursor.executemany with
the prepared INSERT statement on one chunk. -/
def DBM.batch_insert {σ Row : Type} (ins : σ → List Row → Except DriverError σ)
    (c : Conn σ) (rows : List Row) (batch_size : Nat) :
    Conn σ × List BatchEvent × BatchOutcome :=
  if rows.isEmpty then (c, [], BatchOutcome.valueError)
  else
    let run := runBatches ins rows.length (chunksOf batch_size rows)
      { working := c.working, batches_processed := 0, rows_done := 0,
        events := [], failure := none }
    match run.failure with
    | none =>
        ({ committed := run.working, working := run.working },
         run.events ++ [BatchEvent.commit],
         BatchOutcome.ok { total_rows := rows.length,
                           batches_processed := run.batches_processed })
    | some e =>
        (c.rollback, run.events ++ [BatchEvent.rollback],
         BatchOutcome.driverFailure e)

/-- The default of the batch_size parameter of batch_insert (line 380). -/
def DBM.defaultBatchSize : Nat := 1000

/-- Number of commit events in an event trace. -/
def commitCount (evs : List BatchEvent) : Nat :=
  evs.countP (fun ev => decide (ev = BatchEvent.commit))

/-- Number of progress-log events in an event trace. -/
def progressCount (evs : List BatchEvent) : Nat :=
  evs.countP (fun ev => match ev with
    | BatchEvent.progressLog _ _ => true
    | _ => false)

/-- Apply the chunk effects strictly in order, stopping at the first driver
error: the persistence semantics the chunk loop realises. -/
def applyChunks {σ Row : Type} (ins : σ → List Row → Except DriverError σ) :
    List (List Row) → σ → Except DriverError σ
  | [], s => Except.ok s
  | b :: rest, s =>
      match ins s b with
      | Except.ok s' => applyChunks ins rest s'
      | Except.error e => Except.error e

/-- One operation of MySQLConnectionManager.execute_transaction: the
statement text, its parameter tuple (none is the placeholder sentinel for
the prior generated id), and the cursor.lastrowid the driver reports after
the statement runs (0 when the statement generates no id, matching the
falsy check of python_mysql_config.py line 297). -/
structure TxOp where
  query : String
  params : List (Option Nat)
  lastrowid : Nat
deriving DecidableEq, Repr

/-- The substitution of python_mysql_config.py lines 288-292: every None
parameter is replaced by the current last_insert_id. -/
def MCM.substNone (v : Nat) (ps : List (Option Nat)) : List (Option Nat) :=
  ps.map (fun p => match p with
    | none => some v
    | some x => some x)

/-- The operation loop of MySQLConnectionManager.execute_transaction
(python_mysql_config.py lines 281-298), instrumented to return the
parameter tuple each operation actually executes with: substitute None
parameters when params is nonempty and last_insert_id is set, execute, then
update last_insert_id when cursor.lastrowid is truthy. -/
def MCM.runOps : Option Nat → List TxOp → List (List (Option Nat))
  | _, [] => []
  | lastId, op :: rest =>
      let actual := match lastId with
        | some v => if op.params.isEmpty then op.params else MCM.substNone v op.params
        | none => op.params
      let lastId' := if op.lastrowid ≠ 0 then some op.lastrowid else lastId
      actual :: MCM.runOps lastId' rest

/-- MySQLConnectionManager.execute_transaction, as the trace of executed
parameter tuples: last_insert_id starts as None (line 281). -/
def MCM.execute_transaction (ops : List TxOp) : List (List (Option Nat)) :=
  MCM.runOps none ops

/-- The most recent non-null generated id among a list of already executed
operations (the spec's reading: the last nonzero lastrowid seen so far). -/
def lastGeneratedId (ops : List TxOp) : Option Nat :=
  (ops.filterMap (fun op =>
    if op.lastrowid ≠ 0 then some op.lastrowid else none)).getLast?

/-- Specification trace: each operation executes with its parameters after
substituting the most recent non-null generated id among the operations
already executed before it (pre accumulates that prefix). -/
def specTrace (pre : List TxOp) : List TxOp → List (List (Option Nat))
  | [] => []
  | op :: rest =>
      (match lastGeneratedId pre with
        | some v => if op.params.isEmpty then op.params else MCM.substNone v op.params
        | none => op.params) :: specTrace (pre ++ [op]) rest

/-- One row of the grouped customer order summary, restricted to the fields
classify_segment reads (mysql_etl_pipeline.py lines 257-269). -/
structure CustomerSummaryRow where
  total_orders : Nat
  total_spent : ℚ
  days_since_last_order : Int
deriving DecidableEq, Repr

/-- The classify_segment rule list of MySQLETLPipeline.transform_order_summary
(mysql_etl_pipeline.py lines 257-269), evaluated top to bottom, first match
wins. -/
def ETL.classify_segment (row : CustomerSummaryRow) : String :=
  if row.total_orders = 0 then "new"
  else if row.days_since_last_order > 365 then "churned"
  else if row.days_since_last_order > 180 then "at_risk"
  else if row.total_spent > 5000 ∨ row.total_orders > 20 then "vip"
  else if row.total_orders > 1 then "regular"
  else "new"

/-- Concrete database used by witnesses: a growing list of rows. -/
def connListEx : Conn (List Nat) := ⟨[], []⟩

/-- A statement that inserts one row. -/
def txStmtOk : Stmt (List Nat) Unit := fun s => Except.ok (s ++ [1], ())

/-- A statement that raises a driver error. -/
def txStmtFail : Stmt (List Nat) Unit :=
  fun _ => Except.error (DriverError.err "duplicate key")

/-- A chunk effect that appends the chunk (an always-successful
executemany). -/
def insAppend : List Nat → List Nat → Except DriverError (List Nat) :=
  fun s b => Except.ok (s ++ b)

/-- A chunk effect that raises a driver error on the chunk holding row 13
and appends every other chunk. -/
def insFail13 : List Nat → List Nat → Except DriverError (List Nat) :=
  fun s b =>
    if b.contains 13 then Except.error (DriverError.err "dup")
    else Except.ok (s ++ b)

/-- Concrete metrics state used by witnesses. -/
def mEx : QueryMetrics :=
  { total_queries := 4, slow_queries := 1, errors := 1,
    total_execution_time := 6, slow_query_threshold := 1, query_history := [] }

/-! Helper lemmas about QueryMetrics.record_query. -/

/-- The history update of record_query, isolated: append the truncated
record, pop the head when the buffer exceeds 100. -/
theorem record_query_history (m : QueryMetrics) (s : String) (t : ℚ) (b : Bool) :
    (m.record_query s t b).query_history =
      if (m.query_history ++ [toRecord (s, t, b)]).length > 100 then
        (m.query_history ++ [toRecord (s, t, b)]).drop 1
      else m.query_history ++ [toRecord (s, t, b)] := by
  unfold QueryMetrics.record_query toRecord
  cases b <;> simp only [Bool.false_eq_true, if_false, if_true] <;> split <;> rfl

/-- A failure record bumps the error counter by one. -/
theorem record_query_errors_false (m : QueryMetrics) (s : String) (t : ℚ) :
    (m.record_query s t false).errors = m.errors + 1 := by
  unfold QueryMetrics.record_query
  simp only [Bool.false_eq_true, if_false]
  split <;> rfl

/-- Every record bumps the query counter and adds the elapsed time. -/
theorem record_query_counters (m : QueryMetrics) (s : String) (t : ℚ) (b : Bool) :
    (m.record_query s t b).total_queries = m.total_queries + 1 ∧
    (m.record_query s t b).total_execution_time = m.total_execution_time + t := by
  unfold QueryMetrics.record_query
  cases b <;> simp only [Bool.false_eq_true, if_false, if_true] <;> split <;>
    exact ⟨rfl, rfl⟩

/-- The record just made is always the newest history entry. -/
theorem record_query_getLast (m : QueryMetrics) (s : String) (t : ℚ) (b : Bool) :
    (m.record_query s t b).query_history.getLast? =
      some { sql := s.take 200, execution_time := t, success := b } := by
  rw [record_query_history]
  split
  · rename_i hgt
    have hh : 1 ≤ m.query_history.length := by
      simp only [List.length_append, List.length_cons, List.length_nil] at hgt
      omega
    rw [List.drop_append_of_le_length hh]
    exact List.getLast?_concat _
  · exact List.getLast?_concat _

/-- The most recent n entries of a list shorter than n are the whole list. -/
theorem lastN_of_le {α : Type} (n : Nat) (l : List α) (h : l.length ≤ n) :
    lastN n l = l := by
  unfold lastN
  rw [Nat.sub_eq_zero_of_le h, List.drop_zero]

/-- Dropping from the front does not change the most recent n entries while
at least n entries remain. -/
theorem lastN_drop {α : Type} (n k : Nat) (l : List α) (h : k + n ≤ l.length) :
    lastN n (l.drop k) = lastN n l := by
  unfold lastN
  rw [List.length_drop, List.drop_drop]
  congr 1
  omega

/-- Main induction for the ring buffer: folding record_query over any call
sequence from a state within capacity leaves exactly the most recent 100
records. -/
theorem recordMany_history (calls : List (String × ℚ × Bool)) :
    ∀ m : QueryMetrics, m.query_history.length ≤ 100 →
      (m.recordMany calls).query_history =
        lastN 100 (m.query_history ++ calls.map toRecord) := by
  induction calls with
  | nil =>
      intro m h
      simp only [QueryMetrics.recordMany, List.foldl_nil, List.map_nil,
        List.append_nil]
      exact (lastN_of_le 100 _ h).symm
  | cons c rest ih =>
      intro m h
      have step : m.recordMany (c :: rest)
          = (m.record_query c.1 c.2.1 c.2.2).recordMany rest := rfl
      rw [step]
      have hhist := record_query_history m c.1 c.2.1 c.2.2
      by_cases hlen : (m.query_history ++ [toRecord c]).length > 100
      · have h100 : m.query_history.length = 100 := by
          simp only [List.length_append, List.length_cons, List.length_nil] at hlen
          omega
        have hq : (m.record_query c.1 c.2.1 c.2.2).query_history
            = (m.query_history ++ [toRecord c]).drop 1 := by
          rw [hhist]; exact if_pos hlen
        have hle : ((m.query_history ++ [toRecord c]).drop 1).length ≤ 100 := by
          simp only [List.length_drop, List.length_append, List.length_cons,
            List.length_nil]
          omega
        rw [ih _ (by rw [hq]; exact hle), hq]
        rw [List.drop_append_of_le_length (by omega : 1 ≤ m.query_history.length)]
        have hre : m.query_history.drop 1 ++ [toRecord c] ++ rest.map toRecord
            = (m.query_history ++ [toRecord c] ++ rest.map toRecord).drop 1 := by
          rw [List.drop_append_of_le_length
              (by omega : 1 ≤ (m.query_history ++ [toRecord c]).length),
            List.drop_append_of_le_length (by omega : 1 ≤ m.query_history.length)]
        rw [hre, lastN_drop 100 1 _ (by
          simp only [List.length_append, List.length_cons, List.length_nil]
          omega)]
        rw [List.map_cons, List.append_assoc, List.singleton_append]
      · have hq : (m.record_query c.1 c.2.1 c.2.2).query_history
            = m.query_history ++ [toRecord c] := by
          rw [hhist]; exact if_neg hlen
        rw [ih _ (by rw [hq]; omega), hq]
        rw [List.map_cons, List.append_assoc, List.singleton_append]

/-- C6: the metrics query-history ring buffer never holds more than 100
entries after any sequence of record calls (so in particular after 150),
and the entries retained are exactly the most recent 100, oldest evicted
first. -/
theorem ring_buffer_bound (calls : List (String × ℚ × Bool)) :
    (QueryMetrics.init.recordMany calls).query_history
        = lastN 100 (calls.map toRecord) ∧
    (QueryMetrics.init.recordMany calls).query_history.length ≤ 100 := by
  have h := recordMany_history calls QueryMetrics.init (by
    simp [QueryMetrics.init])
  have h2 : QueryMetrics.init.query_history ++ calls.map toRecord
      = calls.map toRecord := by simp [QueryMetrics.init]
  rw [h2] at h
  refine ⟨h, ?_⟩
  rw [h]
  unfold lastN
  rw [List.length_drop]
  omega

/-- C10: the derived metric rates are total: each returns 0 when
total_queries is 0, and the usual quotient otherwise. -/
theorem metrics_rates_total (m : QueryMetrics) :
    (m.total_queries = 0 →
      m.average_execution_time = 0 ∧ m.error_rate = 0 ∧ m.slow_query_rate = 0) ∧
    (0 < m.total_queries →
      m.average_execution_time = m.total_execution_time / (m.total_queries : ℚ) ∧
      m.error_rate = (m.errors : ℚ) / (m.total_queries : ℚ) * 100 ∧
      m.slow_query_rate = (m.slow_queries : ℚ) / (m.total_queries : ℚ) * 100) := by
  constructor
  · intro h
    simp [QueryMetrics.average_execution_time, QueryMetrics.error_rate,
      QueryMetrics.slow_query_rate, h]
  · intro h
    simp [QueryMetrics.average_execution_time, QueryMetrics.error_rate,
      QueryMetrics.slow_query_rate, h]

/-- Witness for C10: the rates evaluated on a concrete nonempty metrics
state and on the empty initial state. -/
theorem metrics_rates_total_witness :
    (0 < mEx.total_queries ∧
      mEx.average_execution_time = mEx.total_execution_time / (mEx.total_queries : ℚ) ∧
      mEx.error_rate = (mEx.errors : ℚ) / (mEx.total_queries : ℚ) * 100 ∧
      mEx.slow_query_rate = (mEx.slow_queries : ℚ) / (mEx.total_queries : ℚ) * 100) ∧
    (QueryMetrics.init.total_queries = 0 ∧
      QueryMetrics.init.average_execution_time = 0 ∧
      QueryMetrics.init.error_rate = 0 ∧
      QueryMetrics.init.slow_query_rate = 0) :=
  ⟨⟨by decide, (metrics_rates_total mEx).2 (by decide)⟩,
   ⟨rfl, (metrics_rates_total QueryMetrics.init).1 rfl⟩⟩

/-- C8: the segmentation rules are applied top to bottom with the first
match winning: 25 orders, 6000 spend, last order 10 days ago is classified
vip — the spend/order-count rule fires even though the more-than-one-order
regular rule would also match. -/
theorem customer_segment_vip :
    ETL.classify_segment ⟨25, 6000, 10⟩ = "vip" ∧
    ((6000 : ℚ) > 5000 ∨ (25 : Nat) > 20) ∧
    (25 : Nat) > 1 ∧
    ETL.classify_segment ⟨25, 6000, 10⟩ ≠ "regular" := by
  decide

/-! Helper lemmas for the overall health status reduction. -/

/-- Collapsed ranks are at most 2. -/
theorem sevRank_le_two (s : HealthStatus) : sevRank s ≤ 2 := by
  cases s <;> decide

/-- The worst collapsed rank of a check set is at most 2. -/
theorem worstRank_le_two (checks : List (String × HealthStatus)) :
    worstRank checks ≤ 2 := by
  induction checks with
  | nil => decide
  | cons c rest ih =>
      have h := sevRank_le_two c.2
      show max (sevRank c.2) (worstRank rest) ≤ 2
      omega

/-- critP matches exactly the statuses of collapsed rank 2. -/
theorem critP_iff (c : String × HealthStatus) :
    critP c = true ↔ sevRank c.2 = 2 := by
  cases h : c.2 <;> simp [critP, h, sevRank]

/-- Some check has collapsed rank 2 exactly when the worst rank is 2. -/
theorem any_crit_iff (checks : List (String × HealthStatus)) :
    checks.any critP = true ↔ worstRank checks = 2 := by
  induction checks with
  | nil => simp [worstRank]
  | cons c rest ih =>
      rw [List.any_cons, Bool.or_eq_true, ih, critP_iff]
      show _ ↔ max (sevRank c.2) (worstRank rest) = 2
      have h1 := worstRank_le_two rest
      have h2 := sevRank_le_two c.2
      omega

/-- warnP matches exactly the warning status. -/
theorem warnP_iff (c : String × HealthStatus) :
    warnP c = true ↔ c.2 = HealthStatus.warning := by
  cases h : c.2 <;> simp [warnP, h]

/-- A warning check forces a worst rank of at least 1. -/
theorem any_warn_ge (checks : List (String × HealthStatus)) :
    checks.any warnP = true → 1 ≤ worstRank checks := by
  induction checks with
  | nil => intro h; simp at h
  | cons c rest ih =>
      intro h
      rw [List.any_cons, Bool.or_eq_true] at h
      show 1 ≤ max (sevRank c.2) (worstRank rest)
      rcases h with h | h
      · rw [(warnP_iff c).mp h]
        have : sevRank HealthStatus.warning = 1 := rfl
        omega
      · have := ih h
        omega

/-- With neither a critical/failed nor a warning check, the worst rank is
0 (not_applicable and unknown never elevate). -/
theorem worstRank_no_elevation (checks : List (String × HealthStatus)) :
    checks.any critP = false → checks.any warnP = false →
      worstRank checks = 0 := by
  induction checks with
  | nil => intro _ _; rfl
  | cons c rest ih =>
      intro hc hw
      rw [List.any_cons, Bool.or_eq_false_iff] at hc hw
      have h0 : sevRank c.2 = 0 := by
        have h1 := hc.1
        have h2 := hw.1
        cases hs : c.2 <;> first
          | rfl
          | (exfalso; simp [critP, warnP, hs] at h1 h2)
      have hr := ih hc.2 hw.2
      show max (sevRank c.2) (worstRank rest) = 0
      omega

/-- C7 (amended): the overall status is the worst check status with failed
collapsed to critical — critical when any check is critical or failed, else
warning when any check is warning, else healthy; not_applicable and unknown
never elevate.  The spec's concrete example evaluates to critical. -/
theorem overall_status_worst_rank (checks : List (String × HealthStatus)) :
    determine_overall_status checks = rankStatus (worstRank checks) ∧
    determine_overall_status
      [("connection_pool", HealthStatus.healthy),
       ("replication", HealthStatus.warning),
       ("backup", HealthStatus.critical)] = HealthStatus.critical := by
  refine ⟨?_, by decide⟩
  cases hc : checks.any critP with
  | true =>
      have h2 := (any_crit_iff checks).mp hc
      rw [h2]
      simp [determine_overall_status, hc]
      rfl
  | false =>
      cases hw : checks.any warnP with
      | true =>
          have h1 : worstRank checks = 1 := by
            have hge := any_warn_ge checks hw
            have hne : worstRank checks ≠ 2 := fun hh =>
              by rw [← any_crit_iff checks] at hh; rw [hc] at hh; exact Bool.false_ne_true hh
            have hle := worstRank_le_two checks
            omega
          rw [h1]
          simp [determine_overall_status, hc, hw]
          rfl
      | false =>
          have h0 := worstRank_no_elevation checks hc hw
          rw [h0]
          simp [determine_overall_status, hc, hw]
          rfl

/-- Counterexample for C7: with a single failed check, the most severe
individual status is failed, but determine_overall_status reports critical,
so the overall status does not equal the most severe individual status. -/
theorem overall_status_failed_counterexample :
    determine_overall_status [("connection", HealthStatus.failed)]
        = HealthStatus.critical ∧
    mostSevere [("connection", HealthStatus.failed)] = HealthStatus.failed ∧
    determine_overall_status [("connection", HealthStatus.failed)]
        ≠ mostSevere [("connection", HealthStatus.failed)] := by
  decide

/-- C9: every run of check_connection_pool reports failed, because the
getPoolStatus attribute it calls does not exist on DatabaseManager; the
in-source threshold logic (unreachable) does realise the claimed bands:
healthy at or below 80, warning above 80 up to 95, critical above 95. -/
theorem pool_check_always_failed :
    HealthCheck.check_connection_pool = HealthStatus.failed ∧
    HealthCheck.poolThresholdStatus 80 = HealthStatus.healthy ∧
    HealthCheck.poolThresholdStatus 90 = HealthStatus.warning ∧
    HealthCheck.poolThresholdStatus 95 = HealthStatus.warning ∧
    HealthCheck.poolThresholdStatus 96 = HealthStatus.critical := by
  refine ⟨rfl, ?_, ?_, ?_, ?_⟩ <;>
    simp [HealthCheck.poolThresholdStatus] <;> norm_num

/-- C4 (amended): a first successful acquisition touches no exhaustion
counter; on pool exhaustion the counter is bumped exactly once and exactly
one retry follows one 0.1 s backoff, whether or not the retry succeeds; a
second exhaustion propagates the raw driver PoolError. -/
theorem pool_retry_behavior (st : ConnStats) (second : AcquireOutcome) :
    (MCM.get_connection_acquire st AcquireOutcome.ok second).stats.pool_exhaustions
        = st.pool_exhaustions ∧
    (MCM.get_connection_acquire st AcquireOutcome.ok second).outcome = Except.ok () ∧
    (MCM.get_connection_acquire st AcquireOutcome.exhausted second).stats.pool_exhaustions
        = st.pool_exhaustions + 1 ∧
    (MCM.get_connection_acquire st AcquireOutcome.exhausted second).events
        = [AcquireEvent.attempt, AcquireEvent.backoff (1 / 10), AcquireEvent.attempt] ∧
    (second = AcquireOutcome.ok →
      (MCM.get_connection_acquire st AcquireOutcome.exhausted second).outcome
        = Except.ok ()) ∧
    (second = AcquireOutcome.exhausted →
      (MCM.get_connection_acquire st AcquireOutcome.exhausted second).outcome
        = Except.error AcqExc.poolError) := by
  cases second <;> simp [MCM.get_connection_acquire]

/-- Witness for C4 (amended): the double-exhaustion run evaluated
concretely. -/
theorem pool_retry_behavior_witness :
    (MCM.get_connection_acquire ⟨0, 0⟩ AcquireOutcome.exhausted
        AcquireOutcome.exhausted).outcome = Except.error AcqExc.poolError ∧
    (MCM.get_connection_acquire ⟨0, 0⟩ AcquireOutcome.exhausted
        AcquireOutcome.exhausted).stats.pool_exhaustions = 0 + 1 :=
  ⟨(pool_retry_behavior ⟨0, 0⟩ AcquireOutcome.exhausted).2.2.2.2.2 rfl,
   (pool_retry_behavior ⟨0, 0⟩ AcquireOutcome.exhausted).2.2.1⟩

/-- Counterexample for C4: when the pool is exhausted once and the retry
succeeds, the call succeeds, yet the exhaustion counter was incremented —
so the counter does not increment only for failures. -/
theorem pool_retry_counter_counterexample :
    (MCM.get_connection_acquire ⟨0, 0⟩ AcquireOutcome.exhausted
        AcquireOutcome.ok).outcome = Except.ok () ∧
    (MCM.get_connection_acquire ⟨0, 0⟩ AcquireOutcome.exhausted
        AcquireOutcome.ok).stats.pool_exhaustions = 1 :=
  ⟨rfl, rfl⟩

/-! Helper lemmas for the transaction embeddings. -/

/-- Appending one executed operation updates the most recent non-null
generated id exactly when that operation generated one. -/
theorem lastGeneratedId_snoc (pre : List TxOp) (op : TxOp) :
    lastGeneratedId (pre ++ [op]) =
      if op.lastrowid ≠ 0 then some op.lastrowid else lastGeneratedId pre := by
  unfold lastGeneratedId
  rw [List.filterMap_append]
  by_cases h : op.lastrowid ≠ 0
  · simp [h]
  · simp [h]

/-- The accumulator of the operation loop always equals the most recent
non-null generated id of the operations already executed. -/
theorem runOps_specTrace (ops : List TxOp) :
    ∀ pre : List TxOp, MCM.runOps (lastGeneratedId pre) ops = specTrace pre ops := by
  induction ops with
  | nil => intro pre; rfl
  | cons op rest ih =>
      intro pre
      simp only [MCM.runOps, specTrace]
      congr 1
      rw [← lastGeneratedId_snoc pre op]
      exact ih (pre ++ [op])

/-- C5: during execute_transaction every operation executes with its None
placeholder parameters substituted by the most recent non-null generated id
among the operations already executed; on the concrete op sequence
[INSERT returning id 7, INSERT with an id placeholder] the second op
executes with the literal 7 in the placeholder position. -/
theorem placeholder_substitution (ops : List TxOp) :
    MCM.execute_transaction ops = specTrace [] ops ∧
    MCM.execute_transaction
      [⟨"INSERT INTO users VALUES", [some 1], 7⟩,
       ⟨"INSERT INTO user_profiles VALUES", [none, some 5], 0⟩]
      = [[some 1], [some 7, some 5]] := by
  refine ⟨?_, by decide⟩
  exact runOps_specTrace ops []

/-- A first failure among the queries makes the sequential loop surface
exactly that error, for any accumulator. -/
theorem runQueries_error {σ ρ : Type} (queries : List (Stmt σ ρ)) :
    ∀ (s : σ) (acc : List ρ) (e : DriverError),
      firstFailure queries s = some e →
      DBM.runQueries queries s acc = Except.error e := by
  induction queries with
  | nil =>
      intro s acc e h
      exact absurd h (by simp [firstFailure])
  | cons q rest ih =>
      intro s acc e h
      unfold firstFailure at h
      unfold DBM.runQueries
      cases hq : q s with
      | ok p =>
          rw [hq] at h
          cases p with
          | mk s' r =>
              simp only at h ⊢
              exact ih s' (r :: acc) e h
      | error e2 =>
          rw [hq] at h
          simp only [Option.some.injEq] at h
          simp [h]

/-- C1: when some op of the sequence fails (the earlier ops having run in
order before it), execute_transaction surfaces exactly that driver error
and the rollback leaves the committed database unchanged — no op of the
sequence has a persisted effect. -/
theorem transaction_rollback_atomicity {σ ρ : Type} (c : Conn σ)
    (queries : List (Stmt σ ρ)) (e : DriverError)
    (h : firstFailure queries c.committed = some e) :
    (DBM.execute_transaction c queries).2 = Except.error e ∧
    (DBM.execute_transaction c queries).1.committed = c.committed ∧
    (DBM.execute_transaction c queries).1.working = c.committed := by
  have hrun := runQueries_error queries c.committed [] e h
  unfold DBM.execute_transaction
  simp [Conn.start_transaction, Conn.rollback, hrun]

/-- Witness for C1: a two-op transaction whose second op fails, evaluated
concretely — the insert of the first op is not persisted. -/
theorem transaction_rollback_atomicity_witness :
    firstFailure [txStmtOk, txStmtFail] connListEx.committed
        = some (DriverError.err "duplicate key") ∧
    ((DBM.execute_transaction connListEx [txStmtOk, txStmtFail]).2
        = Except.error (DriverError.err "duplicate key") ∧
      (DBM.execute_transaction connListEx [txStmtOk, txStmtFail]).1.committed
        = connListEx.committed ∧
      (DBM.execute_transaction connListEx [txStmtOk, txStmtFail]).1.working
        = connListEx.committed) :=
  ⟨rfl, transaction_rollback_atomicity connListEx [txStmtOk, txStmtFail]
    (DriverError.err "duplicate key") rfl⟩

/-- C2 (amended): on a failing statement execution, execute_query records a
metrics entry with success false and the elapsed time (bumping the error
and query counters), the connection is rolled back, and the raw driver
error is re-raised unwrapped. -/
theorem query_failure_behavior {σ ρ : Type} (c : Conn σ) (m : QueryMetrics)
    (sql : String) (params : List Int) (stmt : Stmt σ ρ) (elapsed : ℚ)
    (e : DriverError) (h : stmt c.working = Except.error e) :
    (DBM.execute_query c m sql params stmt elapsed).outcome
        = Except.error (PyRaised.driver e) ∧
    (DBM.execute_query c m sql params stmt elapsed).rolled_back = true ∧
    (DBM.execute_query c m sql params stmt elapsed).conn.committed = c.committed ∧
    (DBM.execute_query c m sql params stmt elapsed).conn.working = c.committed ∧
    (DBM.execute_query c m sql params stmt elapsed).metrics.errors = m.errors + 1 ∧
    (DBM.execute_query c m sql params stmt elapsed).metrics.total_queries
        = m.total_queries + 1 ∧
    (DBM.execute_query c m sql params stmt elapsed).metrics.total_execution_time
        = m.total_execution_time + elapsed ∧
    (DBM.execute_query c m sql params stmt elapsed).metrics.query_history.getLast?
        = some { sql := sql.take 200, execution_time := elapsed, success := false } := by
  unfold DBM.execute_query
  rw [h]
  exact ⟨rfl, rfl, rfl, rfl, record_query_errors_false m sql elapsed,
    (record_query_counters m sql elapsed false).1,
    (record_query_counters m sql elapsed false).2,
    record_query_getLast m sql elapsed false⟩

/-- Witness for C2 (amended): a concrete failing insert. -/
theorem query_failure_behavior_witness :
    txStmtFail connListEx.working = Except.error (DriverError.err "duplicate key") ∧
    ((DBM.execute_query connListEx QueryMetrics.init "INSERT INTO t VALUES"
        [1] txStmtFail (1 / 2)).outcome
        = Except.error (PyRaised.driver (DriverError.err "duplicate key")) ∧
      (DBM.execute_query connListEx QueryMetrics.init "INSERT INTO t VALUES"
        [1] txStmtFail (1 / 2)).rolled_back = true ∧
      (DBM.execute_query connListEx QueryMetrics.init "INSERT INTO t VALUES"
        [1] txStmtFail (1 / 2)).conn.committed = connListEx.committed ∧
      (DBM.execute_query connListEx QueryMetrics.init "INSERT INTO t VALUES"
        [1] txStmtFail (1 / 2)).conn.working = connListEx.committed ∧
      (DBM.execute_query connListEx QueryMetrics.init "INSERT INTO t VALUES"
        [1] txStmtFail (1 / 2)).metrics.errors = QueryMetrics.init.errors + 1 ∧
      (DBM.execute_query connListEx QueryMetrics.init "INSERT INTO t VALUES"
        [1] txStmtFail (1 / 2)).metrics.total_queries
        = QueryMetrics.init.total_queries + 1 ∧
      (DBM.execute_query connListEx QueryMetrics.init "INSERT INTO t VALUES"
        [1] txStmtFail (1 / 2)).metrics.total_execution_time
        = QueryMetrics.init.total_execution_time + 1 / 2 ∧
      (DBM.execute_query connListEx QueryMetrics.init "INSERT INTO t VALUES"
        [1] txStmtFail (1 / 2)).metrics.query_history.getLast?
        = some { sql := ("INSERT INTO t VALUES" : String).take 200,
                 execution_time := 1 / 2, success := false }) :=
  ⟨rfl, query_failure_behavior connListEx QueryMetrics.init "INSERT INTO t VALUES"
    [1] txStmtFail (1 / 2) (DriverError.err "duplicate key") rfl⟩

/-- Counterexample for C2: on a concrete failing statement, the error that
propagates is the raw driver error, not the tagged queryError wrapper the
claim requires — and the two are distinct values. -/
theorem query_error_unwrapped_counterexample :
    (DBM.execute_query connListEx QueryMetrics.init "INSERT INTO t VALUES"
        [1] txStmtFail (1 / 2)).outcome
      = Except.error (PyRaised.driver (DriverError.err "duplicate key")) ∧
    PyRaised.driver (DriverError.err "duplicate key")
      ≠ PyRaised.queryError "INSERT INTO t VALUES" [1]
          (DriverError.err "duplicate key") :=
  ⟨rfl, by decide⟩

/-! Helper lemmas for the batch insert embedding. -/

/-- commitCount distributes over append. -/
theorem commitCount_append (l1 l2 : List BatchEvent) :
    commitCount (l1 ++ l2) = commitCount l1 + commitCount l2 := by
  simp [commitCount, List.countP_append]

/-- progressCount distributes over append. -/
theorem progressCount_append (l1 l2 : List BatchEvent) :
    progressCount (l1 ++ l2) = progressCount l1 + progressCount l2 := by
  simp [progressCount, List.countP_append]

/-- Chunk events contain no commit. -/
theorem commitCount_exec (n : Nat) : commitCount [BatchEvent.execChunk n] = 0 := rfl

/-- Progress events contain no commit. -/
theorem commitCount_log (d t : Nat) :
    commitCount [BatchEvent.progressLog d t] = 0 := rfl

/-- The empty trace contains no commit. -/
theorem commitCount_nil : commitCount [] = 0 := rfl

/-- A commit event counts as one commit. -/
theorem commitCount_commit : commitCount [BatchEvent.commit] = 1 := rfl

/-- A rollback event counts as no commit. -/
theorem commitCount_rollback : commitCount [BatchEvent.rollback] = 0 := rfl

/-- Chunk events contain no progress log. -/
theorem progressCount_exec (n : Nat) :
    progressCount [BatchEvent.execChunk n] = 0 := rfl

/-- A progress event counts once. -/
theorem progressCount_log (d t : Nat) :
    progressCount [BatchEvent.progressLog d t] = 1 := rfl

/-- The empty trace contains no progress log. -/
theorem progressCount_nil : progressCount [] = 0 := rfl

/-- Commit events contain no progress log. -/
theorem progressCount_commit : progressCount [BatchEvent.commit] = 0 := rfl

/-- Rollback events contain no progress log. -/
theorem progressCount_rollback : progressCount [BatchEvent.rollback] = 0 := rfl

/-- The events one successful chunk appends contain no commit. -/
theorem commitCount_step (evs : List BatchEvent) (n d t : Nat) (bp : Nat) :
    commitCount (evs ++ [BatchEvent.execChunk n] ++
      (if bp % 10 = 0 then [BatchEvent.progressLog d t] else []))
      = commitCount evs := by
  by_cases h : bp % 10 = 0
  · rw [if_pos h, commitCount_append, commitCount_append, commitCount_exec,
      commitCount_log]
    omega
  · rw [if_neg h, commitCount_append, commitCount_append, commitCount_exec,
      commitCount_nil]
    omega

/-- The events one successful chunk appends contain a progress log exactly
when the chunk counter reaches a multiple of 10. -/
theorem progressCount_step (evs : List BatchEvent) (n d t : Nat) (bp : Nat) :
    progressCount (evs ++ [BatchEvent.execChunk n] ++
      (if bp % 10 = 0 then [BatchEvent.progressLog d t] else []))
      = progressCount evs + (if bp % 10 = 0 then 1 else 0) := by
  by_cases h : bp % 10 = 0
  · rw [if_pos h, if_pos h, progressCount_append, progressCount_append,
      progressCount_exec, progressCount_log]
  · rw [if_neg h, if_neg h, progressCount_append, progressCount_append,
      progressCount_exec, progressCount_nil]

/-- When every chunk succeeds, the loop ends with the folded working state,
no failure, one processed batch per chunk, no commit event, and one
progress log per 10 chunks. -/
theorem runBatches_ok {σ Row : Type} (ins : σ → List Row → Except DriverError σ)
    (total : Nat) :
    ∀ (chunks : List (List Row)) (st : BatchRun σ) (s2 : σ),
      st.failure = none →
      applyChunks ins chunks st.working = Except.ok s2 →
      (runBatches ins total chunks st).working = s2 ∧
      (runBatches ins total chunks st).failure = none ∧
      (runBatches ins total chunks st).batches_processed
          = st.batches_processed + chunks.length ∧
      commitCount (runBatches ins total chunks st).events
          = commitCount st.events ∧
      progressCount (runBatches ins total chunks st).events
          = progressCount st.events +
            ((st.batches_processed + chunks.length) / 10
              - st.batches_processed / 10) := by
  intro chunks
  induction chunks with
  | nil =>
      intro st s2 hf h
      simp only [applyChunks, Except.ok.injEq] at h
      subst h
      unfold runBatches
      exact ⟨rfl, hf, by simp, by simp, by simp⟩
  | cons b rest ih =>
      intro st s2 hf h
      unfold applyChunks at h
      unfold runBatches
      cases hb : ins st.working b with
      | error e =>
          rw [hb] at h
          simp at h
      | ok s1 =>
          rw [hb] at h
          simp only at h
          have hrec := ih
            { working := s1,
              batches_processed := st.batches_processed + 1,
              rows_done := st.rows_done + b.length,
              events := st.events ++ [BatchEvent.execChunk b.length] ++
                (if (st.batches_processed + 1) % 10 = 0 then
                  [BatchEvent.progressLog (st.rows_done + b.length) total]
                 else []),
              failure := none } s2 rfl h
          refine ⟨hrec.1, hrec.2.1, ?_, ?_, ?_⟩
          · rw [hrec.2.2.1]
            simp only [List.length_cons]
            omega
          · rw [hrec.2.2.2.1]
            exact commitCount_step st.events b.length (st.rows_done + b.length)
              total (st.batches_processed + 1)
          · rw [hrec.2.2.2.2]
            rw [progressCount_step st.events b.length (st.rows_done + b.length)
              total (st.batches_processed + 1)]
            simp only [List.length_cons]
            by_cases h10 : (st.batches_processed + 1) % 10 = 0 <;>
              simp only [h10, if_true, if_false] <;> omega

/-- When some chunk fails, the loop stops with that driver error recorded
and without ever emitting a commit event. -/
theorem runBatches_error {σ Row : Type} (ins : σ → List Row → Except DriverError σ)
    (total : Nat) :
    ∀ (chunks : List (List Row)) (st : BatchRun σ) (e : DriverError),
      st.failure = none →
      applyChunks ins chunks st.working = Except.error e →
      (runBatches ins total chunks st).failure = some e ∧
      commitCount (runBatches ins total chunks st).events
          = commitCount st.events := by
  intro chunks
  induction chunks with
  | nil =>
      intro st e hf h
      simp [applyChunks] at h
  | cons b rest ih =>
      intro st e hf h
      unfold applyChunks at h
      unfold runBatches
      cases hb : ins st.working b with
      | error e2 =>
          rw [hb] at h
          simp only [Except.error.injEq] at h
          subst h
          exact ⟨rfl, rfl⟩
      | ok s1 =>
          rw [hb] at h
          simp only at h
          have hrec := ih
            { working := s1,
              batches_processed := st.batches_processed + 1,
              rows_done := st.rows_done + b.length,
              events := st.events ++ [BatchEvent.execChunk b.length] ++
                (if (st.batches_processed + 1) % 10 = 0 then
                  [BatchEvent.progressLog (st.rows_done + b.length) total]
                 else []),
              failure := none } e rfl h
          refine ⟨hrec.1, ?_⟩
          rw [hrec.2]
          exact commitCount_step st.events b.length (st.rows_done + b.length)
            total (st.batches_processed + 1)

/-- With positive chunk size and enough fuel, the chunks concatenate back
to the original list. -/
theorem chunksOfAux_flatten {α : Type} (n : Nat) (hn : 0 < n) :
    ∀ (fuel : Nat) (l : List α), l.length ≤ fuel →
      (chunksOfAux n fuel l).flatten = l := by
  intro fuel
  induction fuel with
  | zero =>
      intro l h
      have : l = [] := List.eq_nil_of_length_eq_zero (Nat.le_zero.mp h)
      subst this
      rfl
  | succ fuel ih =>
      intro l h
      cases l with
      | nil => rfl
      | cons a t =>
          show ((a :: t).take n :: chunksOfAux n fuel ((a :: t).drop n)).flatten = a :: t
          rw [List.flatten_cons]
          rw [ih ((a :: t).drop n) (by
            simp only [List.length_drop, List.length_cons] at *
            omega)]
          exact List.take_append_drop n (a :: t)

/-- The chunking of batch_insert partitions the rows in order. -/
theorem chunksOf_flatten {α : Type} (n : Nat) (hn : 0 < n) (l : List α) :
    (chunksOf n l).flatten = l :=
  chunksOfAux_flatten n hn l.length l (Nat.le_refl _)

/-- C3 (amended): batch_insert splits the rows into consecutive fixed-size
chunks (default size 1000), logs progress every 10 chunks, and commits
exactly once after all chunks; when a chunk fails, the whole load aborts
with the driver error, no commit is ever issued, and the rollback leaves
the committed database unchanged — no chunk is left in place. -/
theorem batch_insert_behavior {σ Row : Type}
    (ins : σ → List Row → Except DriverError σ) (c : Conn σ)
    (rows : List Row) (bs : Nat) (hbs : 0 < bs) (hne : rows ≠ []) :
    (chunksOf bs rows).flatten = rows ∧
    DBM.defaultBatchSize = 1000 ∧
    (∀ s2, applyChunks ins (chunksOf bs rows) c.working = Except.ok s2 →
      (DBM.batch_insert ins c rows bs).1 = { committed := s2, working := s2 } ∧
      commitCount (DBM.batch_insert ins c rows bs).2.1 = 1 ∧
      progressCount (DBM.batch_insert ins c rows bs).2.1
          = (chunksOf bs rows).length / 10 ∧
      (DBM.batch_insert ins c rows bs).2.2
          = BatchOutcome.ok { total_rows := rows.length,
                              batches_processed := (chunksOf bs rows).length }) ∧
    (∀ e, applyChunks ins (chunksOf bs rows) c.working = Except.error e →
      (DBM.batch_insert ins c rows bs).1 = c.rollback ∧
      commitCount (DBM.batch_insert ins c rows bs).2.1 = 0 ∧
      (DBM.batch_insert ins c rows bs).2.2 = BatchOutcome.driverFailure e) := by
  have hemp : rows.isEmpty = false := by
    cases rows with
    | nil => exact absurd rfl hne
    | cons a t => rfl
  refine ⟨chunksOf_flatten bs hbs rows, rfl, ?_, ?_⟩
  · intro s2 hap
    have hrun := runBatches_ok ins rows.length (chunksOf bs rows)
      { working := c.working, batches_processed := 0, rows_done := 0,
        events := [], failure := none } s2 rfl hap
    unfold DBM.batch_insert
    rw [hemp]
    simp only [Bool.false_eq_true, if_false]
    rw [hrun.2.1]
    dsimp only
    refine ⟨by rw [hrun.1], ?_, ?_, ?_⟩
    · rw [commitCount_append, hrun.2.2.2.1]
      rfl
    · rw [progressCount_append, hrun.2.2.2.2]
      simp [progressCount_commit, progressCount_nil]
    · rw [hrun.2.2.1]
      simp
  · intro e hap
    have hrun := runBatches_error ins rows.length (chunksOf bs rows)
      { working := c.working, batches_processed := 0, rows_done := 0,
        events := [], failure := none } e rfl hap
    unfold DBM.batch_insert
    rw [hemp]
    simp only [Bool.false_eq_true, if_false]
    rw [hrun.1]
    dsimp only
    refine ⟨rfl, ?_, rfl⟩
    rw [commitCount_append, hrun.2]
    rfl

/-- Witness for C3 (amended): 30 rows in chunks of 10, all succeeding —
exactly one commit event for three chunks. -/
theorem batch_insert_behavior_witness :
    (0 < 10) ∧ (List.range 30 ≠ []) ∧
    applyChunks insAppend (chunksOf 10 (List.range 30)) connListEx.working
        = Except.ok (List.range 30) ∧
    commitCount (DBM.batch_insert insAppend connListEx (List.range 30) 10).2.1 = 1 :=
  ⟨by decide, by decide, rfl,
    ((batch_insert_behavior insAppend connListEx (List.range 30) 10
      (by decide) (by decide)).2.2.1 (List.range 30) rfl).2.1⟩

/-- Counterexample for C3: a successful three-chunk load produces exactly
one commit event, not one per chunk; and when the second of two chunks
fails, the committed database is left unchanged — the first chunk is not
left committed in place. -/
theorem batch_insert_commit_counterexample :
    (chunksOf 10 (List.range 30)).length = 3 ∧
    commitCount (DBM.batch_insert insAppend connListEx (List.range 30) 10).2.1 = 1 ∧
    (chunksOf 10 (List.range 20)).length = 2 ∧
    (DBM.batch_insert insFail13 connListEx (List.range 20) 10).2.2
        = BatchOutcome.driverFailure (DriverError.err "dup") ∧
    (DBM.batch_insert insFail13 connListEx (List.range 20) 10).1.committed
        = ([] : List Nat) ∧
    commitCount (DBM.batch_insert insFail13 connListEx (List.range 20) 10).2.1 = 0 := by
  decide
